import Mathlib

/-!
Shallow embedding of the gifmaker repository (src/src/App.vue): the
`useFFmpeg` composable (quality presets, file validation, ffmpeg load,
GIF conversion, object-URL cleanup) and the App component's file
selection / clearing logic.  Stateful code is embedded as explicit
state passing together with a trace of the externally visible actions
(engine calls and flag/progress updates), thrown JS exceptions as
`Except` over `Option String` (an `Error` with a message, or a
non-`Error` value).
-/

deriving instance DecidableEq for Except

namespace Gifmaker

/-- JS thrown value: `some msg` models an `Error` whose `.message` is
`msg`; `none` models a non-`Error` thrown value. -/
abbrev Exn := Option String

/-- Message extraction as in `e instanceof Error ? e.message : "..."`
(the fallback string in `convertToGif`'s catch block). -/
def exnMessage (e : Exn) : String :=
  e.getD "Wystąpił nieznany błąd podczas konwersji."

/-- `QualityPreset` from useFFmpeg.ts: "low" | "medium" | "high" | "original". -/
inductive QualityPreset
  | low
  | medium
  | high
  | original
deriving DecidableEq

/-- One entry of `QUALITY_SETTINGS`: `{ width, colors, fps }`. -/
structure QualitySetting where
  width : Nat
  colors : Nat
  fps : Nat
deriving DecidableEq

/-- The `QUALITY_SETTINGS` table of useFFmpeg.ts. -/
def QUALITY_SETTINGS : QualityPreset → QualitySetting
  | .low => ⟨320, 64, 10⟩
  | .medium => ⟨480, 128, 12⟩
  | .high => ⟨720, 256, 15⟩
  | .original => ⟨1280, 256, 12⟩

/-- `ConversionOptions` from useFFmpeg.ts; every field is optional in TS. -/
structure ConversionOptions where
  fps : Option Nat := none
  quality : Option QualityPreset := none
  loop : Option Nat := none
deriving DecidableEq

/-- A browser `File` as far as the code reads it: `name`, `type`, `size`. -/
structure File where
  name : String
  type : String
  size : Nat
deriving DecidableEq

/-- `ConversionResult` (the blob is represented by its size and URL). -/
structure ConversionResult where
  url : String
  size : Nat
deriving DecidableEq

/-- `MAX_FILE_SIZE = 100 * 1024 * 1024`. -/
def MAX_FILE_SIZE : Nat := 100 * 1024 * 1024

/-- `SUPPORTED_FORMATS` from useFFmpeg.ts. -/
def SUPPORTED_FORMATS : List String :=
  ["video/mp4", "video/quicktime", "video/x-msvideo", "video/webm"]

/-- ASCII lower-casing as performed by the case-insensitive flag of the
regex `/\.(mov|mp4|avi|webm)$/i`. -/
def lowerChar (c : Char) : Char :=
  if 'A' ≤ c ∧ c ≤ 'Z' then Char.ofNat (c.toNat + 32) else c

/-- `file.name.match(/\.(mov|mp4|avi|webm)$/i)` viewed as a boolean:
the name, case-insensitively, ends in one of the four extensions. -/
def extMatches (name : String) : Bool :=
  [".mov", ".mp4", ".avi", ".webm"].any fun ext =>
    ext.data.isSuffixOf (name.data.map lowerChar)

/-- The message of the `UnsupportedFormatError` thrown by `validateFile`. -/
def unsupportedFormatMsg : String :=
  "Nieobsługiwany format pliku. Użyj MP4, MOV, AVI lub WebM."

/-- The message of the `FileTooLargeError` thrown by `validateFile`;
the interpolation `${MAX_FILE_SIZE / 1024 / 1024}` renders as `100`. -/
def fileTooLargeMsg : String :=
  "Plik jest za duży. Maksymalny rozmiar to " ++
    Nat.repr (MAX_FILE_SIZE / 1024 / 1024) ++ "MB."

/-- `validateFile` of useFFmpeg.ts: the format check runs first (type
allow-list or extension regex), then the size ceiling. -/
def validateFile (f : File) : Except Exn Unit :=
  if !(SUPPORTED_FORMATS.contains f.type) && !(extMatches f.name) then
    .error (some unsupportedFormatMsg)
  else if f.size > MAX_FILE_SIZE then
    .error (some fileTooLargeMsg)
  else
    .ok ()

/-- The destructuring `const { quality = "high", ... } = options`
followed by `QUALITY_SETTINGS[quality]`. -/
def derivedSettings (o : ConversionOptions) : QualitySetting :=
  QUALITY_SETTINGS (o.quality.getD .high)

/-- `const fps = customFps ?? settings.fps` — nullish coalescing, so an
explicit `0` is kept. -/
def derivedFps (o : ConversionOptions) : Nat :=
  o.fps.getD (derivedSettings o).fps

/-- The filter-graph template string `vf` built in `convertToGif`. -/
def buildVf (fps width colors : Nat) : String :=
  "fps=" ++ Nat.repr fps ++ ",scale=" ++ Nat.repr width ++
    ":-1:flags=lanczos,split[s0][s1];[s0]palettegen=max_colors=" ++
    Nat.repr colors ++ "[p];[s1][p]paletteuse=dither=floyd_steinberg"

/-- JS `String.prototype.split(".")` on the character list of the name:
splitting an empty string yields `[""]`, a trailing dot yields a final
empty segment. -/
def splitOnDot : List Char → List (List Char)
  | [] => [[]]
  | c :: rest =>
    if c = '.' then [] :: splitOnDot rest
    else
      match splitOnDot rest with
      | [] => [[c]]
      | s :: ss => (c :: s) :: ss

/-- `file.name.split(".").pop() || "mp4"`: the last dot-separated
segment of the name, or `"mp4"` when that segment is empty. -/
def inputExtOf (name : String) : String :=
  let ext := ((splitOnDot name.data).getLast?).getD []
  if ext.isEmpty then "mp4" else String.mk ext

/-- `const inputName = `input.${inputExt}``. -/
def inputNameOf (name : String) : String :=
  "input." ++ inputExtOf name

/-- The reactive state owned by `useFFmpeg`: the (nullable) engine
instance, the four flags/values `isLoading`, `isConverting`,
`isLoaded`, `progress`, and the `error` message slot. -/
structure FFState where
  ffmpeg : Option Unit := none
  isLoading : Bool := false
  isConverting : Bool := false
  isLoaded : Bool := false
  progress : Nat := 0
  error : Option String := none
deriving DecidableEq

/-- The externally visible actions performed by `loadFFmpeg` and
`convertToGif`, in program order: flag and progress writes, engine
creation/asset fetching, and the virtual-filesystem/engine calls. -/
inductive Action
  | setLoading (b : Bool)
  | createInstance
  | fetchAssets
  | setConverting (b : Bool)
  | setProgress (n : Nat)
  | writeFile (name : String)
  | execCmd (args : List String)
  | readFile (name : String)
  | deleteFile (name : String)
deriving DecidableEq

/-- The environment's behaviour at the external boundaries: whether the
engine load throws (and what), whether `exec` throws (and what), the
progress callbacks the engine fires during `exec`, and the output
bytes' size together with the object URL created for them. -/
structure Env where
  loadExn : Option Exn := none
  execExn : Option Exn := none
  progressUpdates : List Nat := []
  outputSize : Nat := 0
  freshUrl : String := ""
deriving DecidableEq

/-- Outcome of `loadFFmpeg`: final state, action trace, and normal
return or thrown value. -/
structure LoadOut where
  state : FFState
  trace : List Action
  result : Except Exn Unit
deriving DecidableEq

/-- Outcome of `convertToGif`. -/
structure ConvOut where
  state : FFState
  trace : List Action
  result : Except Exn ConversionResult
deriving DecidableEq

/-- The message set by `loadFFmpeg` when loading fails. -/
def loadErrorMsg : String :=
  "Nie udało się załadować FFmpeg. Sprawdź połączenie internetowe."

/-- `loadFFmpeg` of useFFmpeg.ts: returns immediately when
`ffmpeg.value && isLoaded.value`; otherwise sets `isLoading`, clears
`error`, creates the instance, fetches core/wasm assets, and either
publishes the instance with `isLoaded := true` or records the load
error message and rethrows; `isLoading` is cleared in `finally`. -/
def loadFFmpeg (loadExn : Option Exn) (s : FFState) : LoadOut :=
  if s.ffmpeg.isSome && s.isLoaded then
    { state := s, trace := [], result := .ok () }
  else
    match loadExn with
    | none =>
      { state := { s with ffmpeg := some (), isLoaded := true,
                          isLoading := false, error := none },
        trace := [.setLoading true, .createInstance, .fetchAssets,
                  .setLoading false],
        result := .ok () }
    | some e =>
      { state := { s with isLoading := false, error := some loadErrorMsg },
        trace := [.setLoading true, .createInstance, .fetchAssets,
                  .setLoading false],
        result := .error e }

/-- The argument vector of the single `instance.exec` call issued by
`convertToGif`: `["-i", inputName, "-vf", vf, "-loop", String(loop), outputName]`. -/
def execArgs (file : File) (o : ConversionOptions) : List String :=
  ["-i", inputNameOf file.name, "-vf",
   buildVf (derivedFps o) (derivedSettings o).width (derivedSettings o).colors,
   "-loop", Nat.repr (o.loop.getD 0), "output.gif"]

/-- The lazy-load step of `convertToGif`:
`if (!ffmpeg.value || !isLoaded.value) { await loadFFmpeg(); }`. -/
def warmOrLoad (env : Env) (s : FFState) : LoadOut :=
  if !s.ffmpeg.isSome || !s.isLoaded then loadFFmpeg env.loadExn s
  else { state := s, trace := [], result := Except.ok () }

/-- The engine phase of `convertToGif` once validation passed and the
engine is available, continuing the trace `ltr` accumulated so far:
write the input file, run the single `exec` command (during which the
engine fires progress callbacks), read the output, and delete both
virtual files. -/
def convertExec (env : Env) (file : File) (o : ConversionOptions)
    (s : FFState) (ltr : List Action) :
    FFState × List Action × Except Exn ConversionResult :=
  let s2 := { s with
              progress := (env.progressUpdates.getLast?).getD s.progress }
  match env.execExn with
  | some e =>
    (s2, ltr ++ [.writeFile (inputNameOf file.name),
           .execCmd (execArgs file o)]
          ++ env.progressUpdates.map Action.setProgress,
     .error e)
  | none =>
    (s2, ltr ++ [.writeFile (inputNameOf file.name),
           .execCmd (execArgs file o)]
          ++ env.progressUpdates.map Action.setProgress
          ++ [.readFile "output.gif",
              .deleteFile (inputNameOf file.name),
              .deleteFile "output.gif"],
     .ok { url := env.freshUrl, size := env.outputSize })

/-- The body of `convertToGif`'s `try` block, started from the state
after the prelude (`error := null; progress := 0; isConverting := true`):
validate, lazily load the engine, then the engine phase. -/
def convertCore (env : Env) (file : File) (o : ConversionOptions)
    (s : FFState) : FFState × List Action × Except Exn ConversionResult :=
  match validateFile file with
  | .error e => (s, [], .error e)
  | .ok _ =>
    let lo := warmOrLoad env s
    match lo.result with
    | .error e => (lo.state, lo.trace, .error e)
    | .ok _ => convertExec env file o lo.state lo.trace

/-- The catch/finally wrapper of `convertToGif`: the catch block stores
`exnMessage` of the thrown value in `error` and rethrows; the finally
block clears `isConverting` and resets `progress` to 0. -/
def afterTry (out : FFState × List Action × Except Exn ConversionResult) :
    ConvOut :=
  let sCatch :=
    match out.2.2 with
    | .ok _ => out.1
    | .error e => { out.1 with error := some (exnMessage e) }
  { state := { sCatch with isConverting := false, progress := 0 },
    trace := .setProgress 0 :: .setConverting true ::
      (out.2.1 ++ [.setConverting false, .setProgress 0]),
    result := out.2.2 }

/-- `convertToGif` of useFFmpeg.ts: prelude
(`error := null; progress := 0; isConverting := true`), the try body,
then catch/finally. -/
def convertToGif (env : Env) (file : File) (o : ConversionOptions)
    (s : FFState) : ConvOut :=
  afterTry (convertCore env file o
    { s with error := none, progress := 0, isConverting := true })

/-- The engine commands (`instance.exec` calls) appearing in a trace. -/
def execCmds (tr : List Action) : List (List String) :=
  tr.filterMap fun a =>
    match a with
    | .execCmd args => some args
    | _ => none

/-- The App component state the cleanup claims are about: the selected
file and the current conversion result, each represented by name/URL. -/
structure AppState where
  selectedFile : Option String := none
  result : Option String := none
deriving DecidableEq

/-- `selectFile` of App.vue: if a result exists, `cleanup(result.url)`
and null the result slot, then accept the new file.  The returned list
is the sequence of URLs passed to `cleanup` (i.e. revoked). -/
def selectFile (file : String) (s : AppState) : AppState × List String :=
  match s.result with
  | some r => ({ selectedFile := some file, result := none }, [r])
  | none => ({ s with selectedFile := some file }, [])

/-- `clearFile` of App.vue: null the selected file; if a result exists,
`cleanup(result.url)` and null the result slot. -/
def clearFile (s : AppState) : AppState × List String :=
  match s.result with
  | some r => ({ selectedFile := none, result := none }, [r])
  | none => ({ s with selectedFile := none }, [])

/-- The `onUnmounted` teardown of App.vue: if a result exists,
`cleanup(result.url)` (the slot is not nulled; the view is gone). -/
def unmountCleanup (s : AppState) : AppState × List String :=
  match s.result with
  | some r => (s, [r])
  | none => (s, [])

/-- The UI operations that can release a result's URL. -/
inductive UIOp
  | select (file : String)
  | clear
  | unmount
deriving DecidableEq

/-- One UI operation. -/
def appStep (s : AppState) : UIOp → AppState × List String
  | .select f => selectFile f s
  | .clear => clearFile s
  | .unmount => unmountCleanup s

/-- A sequence of UI operations, accumulating the revoked URLs. -/
def runOps (s : AppState) : List UIOp → AppState × List String
  | [] => (s, [])
  | op :: rest =>
    let out := appStep s op
    let outs := runOps out.1 rest
    (outs.1, out.2 ++ outs.2)

/-- A run environment for the spec's medium-preset scenario: the engine
loads, `exec` succeeds after progress callbacks, and the output blob
has 123 bytes. -/
def c2Env : Env :=
  { loadExn := none, execExn := none, progressUpdates := [30, 60, 100],
    outputSize := 123, freshUrl := "blob:gif" }

/-- A 5 MB MP4 input file, as in the spec's medium-preset scenario. -/
def c2File : File := File.mk "video.mp4" "video/mp4" 5000000

/-- Options selecting the medium preset with no frame-rate override. -/
def c2Opts : ConversionOptions :=
  { fps := none, quality := some QualityPreset.medium, loop := none }

/-- The initial composable state (nothing loaded, no error). -/
def c2State : FFState := FFState.mk none false false false 0 none

/-! Helper lemmas. -/

theorem splitOnDot_ne_nil (l : List Char) : splitOnDot l ≠ [] := by
  induction l with
  | nil => simp [splitOnDot]
  | cons c rest ih =>
    unfold splitOnDot
    split
    · simp
    · cases hs : splitOnDot rest <;> simp

theorem splitOnDot_no_dot (l : List Char) (h : '.' ∉ l) :
    splitOnDot l = [l] := by
  induction l with
  | nil => rfl
  | cons c rest ih =>
    have hc : c ≠ '.' := fun he => h (he ▸ List.mem_cons_self c rest)
    have hrest : '.' ∉ rest := fun hm => h (List.mem_cons_of_mem c hm)
    unfold splitOnDot
    rw [if_neg hc, ih hrest]

theorem getLastAppendPair {α : Type} (l : List α) (x y : α) :
    (l ++ [x, y]).getLast? = some y := by
  rw [show l ++ [x, y] = (l ++ [x]) ++ [y] by simp]
  exact List.getLast?_concat _

theorem execCmds_append (a b : List Action) :
    execCmds (a ++ b) = execCmds a ++ execCmds b := by
  simp [execCmds, List.filterMap_append]

theorem execCmds_setProgressMap (l : List Nat) :
    execCmds (l.map Action.setProgress) = [] := by
  induction l with
  | nil => rfl
  | cons a t ih =>
    simp only [List.map_cons, execCmds, List.filterMap_cons] at ih ⊢
    exact ih

theorem execCmds_loadTrace (le : Option Exn) (s : FFState) :
    execCmds (loadFFmpeg le s).trace = [] := by
  unfold loadFFmpeg
  split
  · rfl
  · cases le <;> rfl

theorem execCmds_warmOrLoad (env : Env) (s : FFState) :
    execCmds (warmOrLoad env s).trace = [] := by
  unfold warmOrLoad
  split
  · exact execCmds_loadTrace _ _
  · rfl

theorem convertExec_execCmds (env : Env) (f : File) (o : ConversionOptions)
    (s : FFState) (ltr : List Action) :
    execCmds (convertExec env f o s ltr).2.1 =
      execCmds ltr ++ [execArgs f o] := by
  unfold convertExec
  cases env.execExn <;>
    simp [execCmds_append, execCmds_setProgressMap, execCmds]

theorem convertCore_success_execCmds (env : Env) (f : File)
    (o : ConversionOptions) (s : FFState) (r : ConversionResult)
    (h : (convertCore env f o s).2.2 = .ok r) :
    execCmds (convertCore env f o s).2.1 = [execArgs f o] := by
  unfold convertCore at h ⊢
  cases hv : validateFile f with
  | error e =>
    rw [hv] at h
    simp at h
  | ok u =>
    rw [hv] at h
    dsimp only at h ⊢
    cases hr : (warmOrLoad env s).result with
    | error e =>
      rw [hr] at h
      simp at h
    | ok u2 =>
      rw [hr] at h
      dsimp only
      rw [convertExec_execCmds, execCmds_warmOrLoad]
      rfl

theorem buildVf_stages (a b c : Nat) :
    buildVf a b c =
      ("fps=" ++ Nat.repr a ++ ",scale=" ++ Nat.repr b ++
        ":-1:flags=lanczos,split[s0][s1]") ++
      (";[s0]palettegen=max_colors=" ++ Nat.repr c ++ "[p]") ++
      ";[s1][p]paletteuse=dither=floyd_steinberg" := by
  unfold buildVf
  apply String.ext
  rw [show (":-1:flags=lanczos,split[s0][s1];[s0]palettegen=max_colors=" : String) =
      ":-1:flags=lanczos,split[s0][s1]" ++ ";[s0]palettegen=max_colors=" from rfl]
  rw [show ("[p];[s1][p]paletteuse=dither=floyd_steinberg" : String) =
      "[p]" ++ ";[s1][p]paletteuse=dither=floyd_steinberg" from rfl]
  simp only [String.data_append, List.append_assoc]

theorem execCmds_convert (env : Env) (f : File) (o : ConversionOptions)
    (s : FFState) :
    execCmds (convertToGif env f o s).trace =
      execCmds (convertCore env f o
        { s with error := none, progress := 0, isConverting := true }).2.1 := by
  show execCmds (Action.setProgress 0 :: Action.setConverting true ::
      ((convertCore env f o
        { s with error := none, progress := 0, isConverting := true }).2.1 ++
        [Action.setConverting false, Action.setProgress 0])) = _
  generalize (convertCore env f o
    { s with error := none, progress := 0, isConverting := true }).2.1 = mid
  simp [execCmds, List.filterMap_append]

theorem runOps_no_result (s : AppState) (hs : s.result = none)
    (ops : List UIOp) :
    (runOps s ops).2 = [] ∧ (runOps s ops).1.result = none := by
  induction ops generalizing s with
  | nil => exact ⟨rfl, hs⟩
  | cons op rest ih =>
    have hstep : (appStep s op).2 = [] ∧ (appStep s op).1.result = none := by
      cases op <;> simp [appStep, selectFile, clearFile, unmountCleanup, hs]
    simp only [runOps]
    exact ⟨by rw [hstep.1, (ih _ hstep.2).1]; rfl, (ih _ hstep.2).2⟩

/-! Claims. -/

/-- C1: for every `QualityPreset`, `convertToGif` with that preset and
no frame-rate override derives the preset's fixed parameter triple
(low: 320/64/10, medium: 480/128/12, high: 720/256/15, original:
1280/256/12), and an absent quality option defaults to `high`.
`derivedSettings`/`derivedFps` are exactly the derivation `convertToGif`
performs (`const { quality = "high" } = options`,
`QUALITY_SETTINGS[quality]`, `customFps ?? settings.fps`). -/
theorem C1_preset_table (o : ConversionOptions) (h : o.fps = none) :
    (o.quality = some QualityPreset.low →
      derivedFps o = 10 ∧ (derivedSettings o).width = 320 ∧
        (derivedSettings o).colors = 64) ∧
    (o.quality = some QualityPreset.medium →
      derivedFps o = 12 ∧ (derivedSettings o).width = 480 ∧
        (derivedSettings o).colors = 128) ∧
    (o.quality = some QualityPreset.high →
      derivedFps o = 15 ∧ (derivedSettings o).width = 720 ∧
        (derivedSettings o).colors = 256) ∧
    (o.quality = some QualityPreset.original →
      derivedFps o = 12 ∧ (derivedSettings o).width = 1280 ∧
        (derivedSettings o).colors = 256) ∧
    (o.quality = none →
      derivedSettings o = QUALITY_SETTINGS QualityPreset.high ∧
        derivedFps o = 15) := by
  refine ⟨?_, ?_, ?_, ?_, ?_⟩ <;> intro hq <;>
    simp [derivedFps, derivedSettings, QUALITY_SETTINGS, h, hq]

/-- Witness for C1 at the `low` preset. -/
theorem C1_preset_table_witness :
    derivedFps { fps := none, quality := some QualityPreset.low, loop := none } = 10 ∧
    (derivedSettings { fps := none, quality := some QualityPreset.low, loop := none }).width = 320 ∧
    (derivedSettings { fps := none, quality := some QualityPreset.low, loop := none }).colors = 64 :=
  (C1_preset_table
    { fps := none, quality := some QualityPreset.low, loop := none } rfl).1 rfl

/-- C5: an explicit frame-rate override in the options always wins over
the preset default, for every override value including `0` (the code
uses nullish coalescing `customFps ?? settings.fps`, so `0` is kept). -/
theorem C5_fps_override (o : ConversionOptions) (v : Nat)
    (h : o.fps = some v) : derivedFps o = v := by
  simp [derivedFps, h]

/-- Witness for C5 with override `0`. -/
theorem C5_fps_override_witness :
    derivedFps { fps := some 0, quality := some QualityPreset.high, loop := none } = 0 :=
  C5_fps_override
    { fps := some 0, quality := some QualityPreset.high, loop := none } 0 rfl

/-- C3 counterexample: a 100 MiB + 1 byte file whose type and name match
no supported format makes `validateFile` fail with the
unsupported-format message, not the file-too-large message — the format
check runs first, so the size error is not raised "regardless of the
file's declared media type or name". -/
theorem C3_size_counterexample :
    (File.mk "big.txt" "text/plain" 104857601).size > MAX_FILE_SIZE ∧
    validateFile (File.mk "big.txt" "text/plain" 104857601) ≠
      Except.error (some fileTooLargeMsg) ∧
    validateFile (File.mk "big.txt" "text/plain" 104857601) =
      Except.error (some unsupportedFormatMsg) := by
  decide

/-- C3 amended: every file larger than 100 MiB that passes the format
check (supported declared type or supported extension) fails with the
file-too-large message. -/
theorem C3_size_check (f : File) (hsize : f.size > MAX_FILE_SIZE)
    (hfmt : (SUPPORTED_FORMATS.contains f.type || extMatches f.name) = true) :
    validateFile f = .error (some fileTooLargeMsg) := by
  have hc : (!(SUPPORTED_FORMATS.contains f.type) && !(extMatches f.name)) = false := by
    cases hx : SUPPORTED_FORMATS.contains f.type <;>
      cases hy : extMatches f.name <;> simp_all
  unfold validateFile
  rw [hc]
  simp [hsize]

/-- Witness for C3's amended claim: an oversized MP4. -/
theorem C3_size_check_witness :
    validateFile (File.mk "big.mp4" "video/mp4" 104857601) =
      Except.error (some fileTooLargeMsg) :=
  C3_size_check (File.mk "big.mp4" "video/mp4" 104857601)
    (by decide) (by decide)

/-- C4: a file whose declared type is not in the four-entry allow-list
and whose name does not end in a supported extension fails with the
unsupported-format message; conversely, matching either arm of the check
never produces that error. -/
theorem C4_format_check (f : File) :
    (SUPPORTED_FORMATS.contains f.type = false → extMatches f.name = false →
      validateFile f = .error (some unsupportedFormatMsg)) ∧
    (SUPPORTED_FORMATS.contains f.type = true ∨ extMatches f.name = true →
      validateFile f ≠ .error (some unsupportedFormatMsg)) := by
  constructor
  · intro h1 h2
    have hc : (!(SUPPORTED_FORMATS.contains f.type) && !(extMatches f.name)) = true := by
      rw [h1, h2]
      rfl
    unfold validateFile
    rw [hc]
    simp
  · intro h
    have hc : (!(SUPPORTED_FORMATS.contains f.type) && !(extMatches f.name)) = false := by
      rcases h with h | h
      · rw [h]
        rfl
      · rw [h]
        cases SUPPORTED_FORMATS.contains f.type <;> rfl
    unfold validateFile
    rw [hc]
    simp only [Bool.false_eq_true, if_false]
    split
    · intro hcontra
      have h1 := Except.error.inj hcontra
      have h2 := Option.some.inj h1
      exact absurd h2 (by decide)
    · simp

/-- Witness for C4: an unsupported text file is rejected with the
format error; a file with unknown type but `.mov` name passes the
format check. -/
theorem C4_format_check_witness :
    validateFile (File.mk "notes.txt" "text/plain" 5) =
      Except.error (some unsupportedFormatMsg) ∧
    validateFile (File.mk "clip.mov" "application/binary" 5) ≠
      Except.error (some unsupportedFormatMsg) :=
  ⟨(C4_format_check (File.mk "notes.txt" "text/plain" 5)).1
      (by decide) (by decide),
   (C4_format_check (File.mk "clip.mov" "application/binary" 5)).2
      (Or.inr (by decide))⟩

/-- C10: the virtual input filename is `input.` followed by the last
dot-separated segment of the original name; for a dot-free name that
segment is the whole name, and the `mp4` fallback applies exactly when
the last segment is empty. -/
theorem C10_input_name (name : String) (seg : List Char)
    (h : (splitOnDot name.data).getLast? = some seg) :
    (seg ≠ [] → inputExtOf name = String.mk seg ∧
      inputNameOf name = "input." ++ String.mk seg) ∧
    (seg = [] → inputExtOf name = "mp4" ∧ inputNameOf name = "input.mp4") ∧
    ('.' ∉ name.data → seg = name.data) := by
  refine ⟨?_, ?_, ?_⟩
  · intro hne
    have hext : inputExtOf name = String.mk seg := by
      unfold inputExtOf
      rw [h]
      cases seg with
      | nil => exact absurd rfl hne
      | cons a t => simp [List.isEmpty]
    exact ⟨hext, by rw [inputNameOf, hext]⟩
  · intro he
    subst he
    have hext : inputExtOf name = "mp4" := by
      unfold inputExtOf
      rw [h]
      simp [List.isEmpty]
    refine ⟨hext, ?_⟩
    rw [inputNameOf, hext]
    decide
  · intro hnd
    rw [splitOnDot_no_dot name.data hnd] at h
    simpa using h.symm

/-- Witness for C10: a dot-free name keeps the whole name as extension;
a name ending in a dot falls back to `mp4`. -/
theorem C10_input_name_witness :
    (inputExtOf "clip" = String.mk ['c', 'l', 'i', 'p'] ∧
      inputNameOf "clip" = "input." ++ String.mk ['c', 'l', 'i', 'p']) ∧
    inputExtOf "movie." = "mp4" :=
  ⟨(C10_input_name "clip" ['c', 'l', 'i', 'p'] (by decide)).1 (by decide),
   ((C10_input_name "movie." [] (by decide)).2.1 rfl).1⟩

/-- C6: for every call to `convertToGif` — success or any failure — the
progress value is reset to 0 before the conversion work starts (the
first action of the call is the progress reset) and is 0 again once the
call finishes (the final state and the last action of the call). -/
theorem C6_progress_reset (env : Env) (f : File) (o : ConversionOptions)
    (s : FFState) :
    (convertToGif env f o s).state.progress = 0 ∧
    (convertToGif env f o s).trace.head? = some (Action.setProgress 0) ∧
    (convertToGif env f o s).trace.getLast? = some (Action.setProgress 0) := by
  refine ⟨rfl, rfl, ?_⟩
  show (Action.setProgress 0 :: Action.setConverting true ::
      ((convertCore env f o
        { s with error := none, progress := 0, isConverting := true }).2.1 ++
        [Action.setConverting false, Action.setProgress 0])).getLast? =
    some (Action.setProgress 0)
  generalize (convertCore env f o
    { s with error := none, progress := 0, isConverting := true }).2.1 = mid
  rw [show Action.setProgress 0 :: Action.setConverting true ::
      (mid ++ [Action.setConverting false, Action.setProgress 0]) =
      (Action.setProgress 0 :: Action.setConverting true :: mid) ++
      [Action.setConverting false, Action.setProgress 0] by simp]
  exact getLastAppendPair _ _ _

/-- C7: when a previous result exists, `selectFile` and `clearFile`
each call `cleanup` on its URL exactly once and null the result slot
(`selectFile` before accepting the new file), and no later sequence of
select/clear/unmount operations releases that URL again. -/
theorem C7_cleanup_once (s : AppState) (u : String) (h : s.result = some u)
    (f : String) (ops : List UIOp) :
    (selectFile f s).2 = [u] ∧ (selectFile f s).1.result = none ∧
    (selectFile f s).1.selectedFile = some f ∧
    (clearFile s).2 = [u] ∧ (clearFile s).1.result = none ∧
    (runOps (selectFile f s).1 ops).2 = [] ∧
    (runOps (clearFile s).1 ops).2 = [] := by
  have hs1 : (selectFile f s).1.result = none := by simp [selectFile, h]
  have hc1 : (clearFile s).1.result = none := by simp [clearFile, h]
  exact ⟨by simp [selectFile, h], hs1, by simp [selectFile, h],
    by simp [clearFile, h], hc1,
    (runOps_no_result _ hs1 ops).1, (runOps_no_result _ hc1 ops).1⟩

/-- Witness for C7: a state holding result URL `blob:old`; selecting
`new.mp4` revokes it once, later clear/unmount/select revoke nothing. -/
theorem C7_cleanup_once_witness :
    (selectFile "new.mp4" (AppState.mk (some "old.mp4") (some "blob:old"))).2 = ["blob:old"] ∧
    (selectFile "new.mp4" (AppState.mk (some "old.mp4") (some "blob:old"))).1.result = none ∧
    (selectFile "new.mp4" (AppState.mk (some "old.mp4") (some "blob:old"))).1.selectedFile = some "new.mp4" ∧
    (clearFile (AppState.mk (some "old.mp4") (some "blob:old"))).2 = ["blob:old"] ∧
    (clearFile (AppState.mk (some "old.mp4") (some "blob:old"))).1.result = none ∧
    (runOps (selectFile "new.mp4" (AppState.mk (some "old.mp4") (some "blob:old"))).1
      [UIOp.clear, UIOp.select "x.mp4", UIOp.unmount]).2 = [] ∧
    (runOps (clearFile (AppState.mk (some "old.mp4") (some "blob:old"))).1
      [UIOp.clear, UIOp.select "x.mp4", UIOp.unmount]).2 = [] :=
  C7_cleanup_once (AppState.mk (some "old.mp4") (some "blob:old"))
    "blob:old" rfl "new.mp4" [UIOp.clear, UIOp.select "x.mp4", UIOp.unmount]

/-- C8: every failing `convertToGif` call rethrows (its result is the
thrown value, so the caller receives no `ConversionResult`), and
records the thrown value's human-readable message in the error slot. -/
theorem C8_failure (env : Env) (f : File) (o : ConversionOptions)
    (s : FFState) (e : Exn)
    (h : (convertToGif env f o s).result = .error e) :
    (convertToGif env f o s).state.error = some (exnMessage e) ∧
    ∀ r : ConversionResult, (convertToGif env f o s).result ≠ .ok r := by
  have hcore : (convertCore env f o
      { s with error := none, progress := 0, isConverting := true }).2.2 =
      .error e := h
  constructor
  · show (match (convertCore env f o
        { s with error := none, progress := 0, isConverting := true }).2.2 with
      | Except.ok _ => (convertCore env f o
          { s with error := none, progress := 0, isConverting := true }).1
      | Except.error e' =>
          { (convertCore env f o
              { s with error := none, progress := 0,
                       isConverting := true }).1 with
            error := some (exnMessage e') }).error = some (exnMessage e)
    rw [hcore]
  · intro r hr
    rw [h] at hr
    exact Except.noConfusion hr

/-- Witness for C8: a transcode failure (`exec` throws an `Error` with
message `boom`) records that message and yields no result. -/
theorem C8_failure_witness :
    (convertToGif
        { loadExn := none, execExn := some (some "boom"),
          progressUpdates := [], outputSize := 0, freshUrl := "" }
        (File.mk "video.mp4" "video/mp4" 5000000)
        { fps := none, quality := some QualityPreset.medium, loop := none }
        (FFState.mk none false false false 0 none)).state.error =
      some (exnMessage (some "boom")) :=
  (C8_failure
    { loadExn := none, execExn := some (some "boom"),
      progressUpdates := [], outputSize := 0, freshUrl := "" }
    (File.mk "video.mp4" "video/mp4" 5000000)
    { fps := none, quality := some QualityPreset.medium, loop := none }
    (FFState.mk none false false false 0 none) (some "boom") rfl).1

/-- C9: `loadFFmpeg` on an initialized-and-loaded state returns
immediately — unchanged state, no actions, so no fetch and no new
instance; otherwise it creates/fetches the engine bracketed by setting
and clearing the loading flag; and after a successful load any further
call returns immediately, so the engine is initialized at most once and
reused. -/
theorem C9_engine_singleton (le : Option Exn) (s : FFState) :
    (s.ffmpeg.isSome = true → s.isLoaded = true →
      loadFFmpeg le s = { state := s, trace := [], result := .ok () }) ∧
    ((s.ffmpeg.isSome && s.isLoaded) = false →
      (loadFFmpeg le s).trace =
        [Action.setLoading true, Action.createInstance, Action.fetchAssets,
         Action.setLoading false] ∧
      (loadFFmpeg le s).state.isLoading = false) ∧
    (le = none → ∀ le2 : Option Exn,
      loadFFmpeg le2 (loadFFmpeg le s).state =
        { state := (loadFFmpeg le s).state, trace := [],
          result := .ok () }) := by
  refine ⟨?_, ?_, ?_⟩
  · intro h1 h2
    simp [loadFFmpeg, h1, h2]
  · intro hcond
    unfold loadFFmpeg
    rw [if_neg (by simp [hcond])]
    cases le <;> simp
  · intro hle le2
    subst hle
    by_cases hl : (s.ffmpeg.isSome && s.isLoaded) = true
    · simp [loadFFmpeg, hl]
    · have hfalse : (s.ffmpeg.isSome && s.isLoaded) = false :=
        Bool.eq_false_iff.mpr hl
      have hinner : loadFFmpeg none s =
          { state := { s with ffmpeg := some (), isLoaded := true,
                              isLoading := false, error := none },
            trace := [Action.setLoading true, Action.createInstance,
                      Action.fetchAssets, Action.setLoading false],
            result := .ok () } := by
        unfold loadFFmpeg
        rw [if_neg (by simp [hfalse])]
      rw [hinner]
      simp [loadFFmpeg]

/-- Witness for C9: a warm state is returned unchanged with no actions;
a cold state performs the bracketed fetch; after a successful cold
load, a second call (even one that would fail) returns immediately. -/
theorem C9_engine_singleton_witness :
    loadFFmpeg none (FFState.mk (some ()) false false true 0 none) =
      { state := FFState.mk (some ()) false false true 0 none,
        trace := [], result := .ok () } ∧
    (loadFFmpeg none (FFState.mk none false false false 0 none)).trace =
      [Action.setLoading true, Action.createInstance, Action.fetchAssets,
       Action.setLoading false] ∧
    loadFFmpeg (some (some "network down"))
        (loadFFmpeg none (FFState.mk none false false false 0 none)).state =
      { state := (loadFFmpeg none
          (FFState.mk none false false false 0 none)).state,
        trace := [], result := .ok () } :=
  ⟨(C9_engine_singleton none (FFState.mk (some ()) false false true 0 none)).1
      rfl rfl,
   ((C9_engine_singleton none (FFState.mk none false false false 0 none)).2.1
      rfl).1,
   (C9_engine_singleton none (FFState.mk none false false false 0 none)).2.2
      rfl (some (some "network down"))⟩

/-- C2: every successful `convertToGif` run issues exactly one engine
command, whose argument vector carries the two-stage filter expression:
stage 1 resamples to the derived fps, scales to the derived width with
height `-1`, and splits into two branches; stage 2 generates a palette
capped at the derived color count and applies it with Floyd–Steinberg
dithering.  For the medium preset with no override the expression is
the concrete string containing `fps=12`, `scale=480:-1`, and
`max_colors=128`. -/
theorem C2_single_filter_command (env : Env) (f : File)
    (o : ConversionOptions) (s : FFState) (r : ConversionResult)
    (h : (convertToGif env f o s).result = .ok r) :
    execCmds (convertToGif env f o s).trace = [execArgs f o] ∧
    execArgs f o = ["-i", inputNameOf f.name, "-vf",
      buildVf (derivedFps o) (derivedSettings o).width
        (derivedSettings o).colors,
      "-loop", Nat.repr (o.loop.getD 0), "output.gif"] ∧
    buildVf (derivedFps o) (derivedSettings o).width
        (derivedSettings o).colors =
      ("fps=" ++ Nat.repr (derivedFps o) ++ ",scale=" ++
        Nat.repr (derivedSettings o).width ++
        ":-1:flags=lanczos,split[s0][s1]") ++
      (";[s0]palettegen=max_colors=" ++
        Nat.repr (derivedSettings o).colors ++ "[p]") ++
      ";[s1][p]paletteuse=dither=floyd_steinberg" ∧
    (o.quality = some QualityPreset.medium → o.fps = none →
      buildVf (derivedFps o) (derivedSettings o).width
          (derivedSettings o).colors =
        "fps=12,scale=480:-1:flags=lanczos,split[s0][s1];[s0]palettegen=max_colors=128[p];[s1][p]paletteuse=dither=floyd_steinberg") := by
  refine ⟨?_, rfl, buildVf_stages _ _ _, ?_⟩
  · rw [execCmds_convert]
    exact convertCore_success_execCmds env f o
      { s with error := none, progress := 0, isConverting := true } r h
  · intro hq hf
    have h1 : derivedFps o = 12 := by
      simp [derivedFps, derivedSettings, hq, hf, QUALITY_SETTINGS]
    have h2 : derivedSettings o = QualitySetting.mk 480 128 12 := by
      simp [derivedSettings, hq, QUALITY_SETTINGS]
    rw [h1, h2]
    decide

/-- Witness for C2: the spec's scenario — a 5 MB MP4 converted with the
medium preset succeeds, issues exactly one engine command, and its
filter string is the concrete medium-preset expression. -/
theorem C2_single_filter_command_witness :
    execCmds (convertToGif c2Env c2File c2Opts c2State).trace =
      [execArgs c2File c2Opts] ∧
    buildVf (derivedFps c2Opts) (derivedSettings c2Opts).width
        (derivedSettings c2Opts).colors =
      "fps=12,scale=480:-1:flags=lanczos,split[s0][s1];[s0]palettegen=max_colors=128[p];[s1][p]paletteuse=dither=floyd_steinberg" :=
  ⟨(C2_single_filter_command c2Env c2File c2Opts c2State
      (ConversionResult.mk "blob:gif" 123) rfl).1,
   (C2_single_filter_command c2Env c2File c2Opts c2State
      (ConversionResult.mk "blob:gif" 123) rfl).2.2.2 rfl rfl⟩

end Gifmaker
